import Mathlib

/-!
Verification of the workflow-run submission pipeline
(`client/src/components/Workflow/Run/WorkflowRunForm.vue`-style component,
given here as `src/unnamed/part_001`).

The component state and the `onExecute` / `onValidation` /
`getValidationScrollTo` methods are embedded shallowly:

* JavaScript objects keyed by numeric step indexes are embedded as
  association lists `List (Nat × v)`.  `Object.entries` on such an object
  enumerates integer-like keys in ascending numeric order, so a state
  reachable through `onValidation` has its entries sorted by key; the
  insertion function `jsIndexInsert` below maintains exactly that order.
* The per-step validation slot holds either `null`/`undefined` (embedded as
  `none`) or a JavaScript array (embedded as `some list`).  JavaScript
  truthiness of that slot — `if (stepValidation)` — is `false` for
  `null`/`undefined` and `true` for every array, including the empty one.
* Scroll-target step ids are strings (they come from `Object.entries`
  keys or from server error payloads); the loose comparison
  `this.stepScrollTo.stepId == stepId` against a numeric step index is
  embedded via decimal conversion (`decimalToNat?`), which agrees with
  the JavaScript `==` coercion on the canonical decimal key strings that
  actually occur.
* The `.catch` handler of the submission promise is embedded as a
  separate transition `onSubmissionError`, taking the decoded
  `err_data` payload (`none` when absent/falsy, `some entries`
  otherwise); the `try`/`catch` around the error formatting throws
  exactly when the entry list is empty (`errorEntries[0][0]` on an
  empty array dereferences `undefined`).
-/

namespace WorkflowRunForm

/-- The per-step validation slot: `none` embeds JavaScript `null`/`undefined`,
`some l` embeds an array with elements `l`. -/
abbrev ValidationSlot := Option (List String)

/-- JavaScript truthiness of a validation slot: `null`/`undefined` are
falsy, any array (also the empty one) is truthy. -/
def truthyValidation : ValidationSlot → Bool
  | none => false
  | some _ => true

/-- JavaScript truthiness of a string-or-undefined value: `undefined` and
the empty string are falsy, every other string is truthy. -/
def truthyString : Option String → Bool
  | none => false
  | some s => !(s == "")

/-- Decimal reading of a string, over its character list: `some` of the
value on non-empty all-digit strings, `none` otherwise.  This is the
`ToNumber` coercion of JavaScript restricted to the decimal key strings
that occur in the component. -/
def decimalToNat? (s : String) : Option Nat :=
  if s.data ≠ [] ∧ s.data.all (fun c => c.isDigit) then
    some (s.data.foldl (fun n c => 10 * n + (c.toNat - 48)) 0)
  else none

/-- Loose equality (`==`) between a stored scroll-target step id (a
string) and a queried numeric step index: the string is coerced to a
number and compared. -/
def jsEqStrNat (s : String) (n : Nat) : Bool :=
  decimalToNat? s == some n

/-- Embedding of `array.slice()`: a copy of the array (same contents,
fresh object). -/
def jsSlice (l : List String) : List String :=
  l.drop 0

/-- Insertion into a JavaScript object keyed by numeric indexes,
exposed in `Object.entries` enumeration order: integer-like keys are
enumerated ascending, and assigning an existing key overwrites in
place. -/
def jsIndexInsert {v : Type} (key : Nat) (val : v) :
    List (Nat × v) → List (Nat × v)
  | [] => [(key, val)]
  | (k, w) :: rest =>
    if key < k then (key, val) :: (k, w) :: rest
    else if key = k then (key, val) :: rest
    else (k, w) :: jsIndexInsert key val rest

/-- The scroll target recorded for UI consumption: a step id (string)
and the failure detail.  `stepError` is `none` when the slot holds
JavaScript `undefined`. -/
structure ScrollTo where
  stepId : String
  stepError : Option (List String)
deriving DecidableEq

/-- The part of the workflow model (`this.model`) that `onExecute`
reads: the current history id, the workflow id, and the connection
predicate for step inputs. -/
structure WorkflowModel where
  historyId : String
  workflowId : String
  isConnected : Nat → String → Bool

/-- The data fields of the component touched by the embedded methods.
`stepData`, `stepValidations` are objects keyed by numeric step
indexes, listed in `Object.entries` order; `stepScrollTo` starts as the
empty object (`none`); `historyData`, `wpData`, `resourceData` are flat
string-keyed maps. -/
structure State where
  showExecuting : Bool
  stepData : List (Nat × List (String × String))
  stepValidations : List (Nat × ValidationSlot)
  stepScrollTo : Option ScrollTo
  wpData : List (String × String)
  historyData : List (String × String)
  resourceData : List (String × String)
  useCachedJobs : Bool

/-- Embeds `getValidationScrollTo(stepId)`: the stored error detail when the
step id of the scroll target loosely equals the queried index, else a fresh
empty array.  The result is a JavaScript value that is either an array
or `undefined`, embedded as `Option (List String)`. -/
def getValidationScrollTo (st : State) (stepId : Nat) : Option (List String) :=
  match st.stepScrollTo with
  | some t => if jsEqStrNat t.stepId stepId then t.stepError else some []
  | none => some []

/-- Embeds `onValidation(stepId, validation)`: stores the reported slot under
the index of the step. -/
def onValidation (st : State) (stepId : Nat) (validation : ValidationSlot) :
    State :=
  { st with stepValidations := jsIndexInsert stepId validation st.stepValidations }

/-- The validation scan of `onExecute`: the first entry (in enumeration
order) whose slot is truthy, together with its array contents. -/
def firstTruthyValidation : List (Nat × ValidationSlot) → Option (Nat × List String)
  | [] => none
  | (sid, slot) :: rest =>
    match slot with
    | some l => some (sid, l)
    | none => firstTruthyValidation rest

/-- The per-step parameter filter of `onExecute`: drops every input name
the model reports as connected for that step. -/
def filterStepData (isConn : Nat → String → Bool) (stepId : Nat)
    (stepData : List (String × String)) : List (String × String) :=
  stepData.filter (fun p => !(isConn stepId p.1))

/-- The `parameters` object assembled by `onExecute`: one filtered map
per recorded step. -/
def buildParameters (isConn : Nat → String → Bool)
    (stepData : List (Nat × List (String × String))) :
    List (Nat × List (String × String)) :=
  stepData.map (fun p => (p.1, filterStepData isConn p.1 p.2))

/-- The assembled invocation request (`jobDef`), field for field. -/
structure JobDef where
  new_history_name : Option String
  history_id : Option String
  resource_params : List (String × String)
  replacement_params : List (String × String)
  use_cached_job : Bool
  parameters : List (Nat × List (String × String))
  parameters_normalized : Bool
  batch : Bool
  require_exact_tool_versions : Bool
deriving DecidableEq

/-- The `jobDef` literal of `onExecute`, assembled from the component
state and the model. -/
def mkJobDef (model : WorkflowModel) (st : State) : JobDef :=
  let newHistoryName := st.historyData.lookup "new_history|name"
  { new_history_name :=
      if truthyString newHistoryName then newHistoryName else none
    history_id :=
      if !(truthyString newHistoryName) then some model.historyId else none
    resource_params := st.resourceData
    replacement_params := st.wpData
    use_cached_job := st.useCachedJobs
    parameters := buildParameters model.isConnected st.stepData
    parameters_normalized := true
    batch := true
    require_exact_tool_versions := false }

/-- What `onExecute` does after its synchronous part: either it returned
early from the validation scan (no network contact), or it issued the
single `invokeWorkflow(workflowId, jobDef)` call. -/
inductive ExecAction where
  | abort
  | submit (workflowId : String) (jobDef : JobDef)
deriving DecidableEq

/-- Whether the action contacts the invocation submission service. -/
def ExecAction.isSubmit : ExecAction → Bool
  | .abort => false
  | .submit _ _ => true

/-- Embeds `onExecute()`: the synchronous part, up to and including the
`invokeWorkflow` call.  On the first truthy validation slot it records
the scroll target (step id as the decimal entry key, error detail as a
copy of the array) and returns; otherwise it assembles the request,
raises the busy indicator and issues the call. -/
def onExecute (model : WorkflowModel) (st : State) : State × ExecAction :=
  match firstTruthyValidation st.stepValidations with
  | some (sid, l) =>
    ({ st with stepScrollTo := some ⟨toString sid, some (jsSlice l)⟩ },
      ExecAction.abort)
  | none =>
    ({ st with showExecuting := true },
      ExecAction.submit model.workflowId (mkJobDef model st))

/-- The decoded `err_data` payload of a rejected submission: `none` when
`e.response.data.err_data` is absent or falsy, `some entries` when it is
a truthy object with the given `Object.entries` — each entry a step id
and a field-name/field-error map. -/
abbrev ErrData := Option (List (String × List (String × String)))

/-- The `.catch` handler of the submission promise: clears the busy
indicator; with a truthy `err_data` it formats the first entry into the
scroll target (the `try` throws, and is caught, exactly when the entry
list is empty, since `errorEntries[0][0]` dereferences `undefined`);
otherwise, and on a caught formatting error, it forwards the raw error.
The returned flag is `true` when the raw error was emitted to the
caller (`submissionError`). -/
def onSubmissionError (st : State) (errData : ErrData) : State × Bool :=
  match errData with
  | none => ({ st with showExecuting := false }, true)
  | some [] => ({ st with showExecuting := false }, true)
  | some ((sid, fields) :: _) =>
    ({ st with
        showExecuting := false
        stepScrollTo :=
          some ⟨sid, fields.head?.map (fun p => [p.1, p.2])⟩ },
      false)

/-! Concrete fixtures used by witnesses and counterexamples. -/

/-- A concrete workflow model: input `a` of step `0` is connected. -/
def exModel : WorkflowModel :=
  ⟨"hist-7", "wf-3", fun sid name => sid == 0 && name == "a"⟩

/-- A concrete state with all validation slots `null` (submittable). -/
def cleanState : State :=
  { showExecuting := false
    stepData := [(0, [("a", "1"), ("b", "2")]), (1, [("c", "3")])]
    stepValidations := [(0, none), (1, none)]
    stepScrollTo := none
    wpData := [("wp_param", "x")]
    historyData := []
    resourceData := []
    useCachedJobs := false }

/-- A concrete state whose validation slots are the empty array at step
`0` and `["required"]` at step `1`. -/
def mixedValidState : State :=
  { cleanState with stepValidations := [(0, some []), (1, some ["required"])] }

/-- A concrete state whose only validation slot is the empty array. -/
def emptyArrayValidState : State :=
  { cleanState with stepValidations := [(0, some [])] }

/-- A concrete state with a recorded new-history name. -/
def historyState : State :=
  { cleanState with historyData := [("new_history|name", "My new history")] }

/-- A concrete state with a recorded scroll target at step `1`. -/
def scrollState : State :=
  { cleanState with stepScrollTo := some ⟨"1", some ["required"]⟩ }

/-! Helper lemmas shared by the claim theorems. -/

/-- The slice copy keeps the contents unchanged. -/
theorem jsSlice_eq (l : List String) : jsSlice l = l := rfl

/-- Inversion of the submitting branch of `onExecute`: a submission
happens only when no validation slot is truthy, and then the request is
`mkJobDef` for the workflow id of the model. -/
theorem onExecute_submit_inv (m : WorkflowModel) (st : State) (wid : String)
    (jd : JobDef) (h : (onExecute m st).2 = ExecAction.submit wid jd) :
    firstTruthyValidation st.stepValidations = none ∧
      wid = m.workflowId ∧ jd = mkJobDef m st := by
  unfold onExecute at h
  cases hf : firstTruthyValidation st.stepValidations with
  | none =>
    rw [hf] at h
    simp at h
    exact ⟨rfl, h.1.symm, h.2.symm⟩
  | some p =>
    obtain ⟨sid, l⟩ := p
    rw [hf] at h
    simp at h

/-- Inversion of the aborting branch of `onExecute`. -/
theorem onExecute_abort_inv (m : WorkflowModel) (st : State)
    (h : (onExecute m st).2 = ExecAction.abort) :
    ∃ sid l, firstTruthyValidation st.stepValidations = some (sid, l) ∧
      onExecute m st =
        ({ st with stepScrollTo := some ⟨toString sid, some (jsSlice l)⟩ },
          ExecAction.abort) := by
  unfold onExecute at h ⊢
  cases hf : firstTruthyValidation st.stepValidations with
  | none =>
    rw [hf] at h
    simp at h
  | some p =>
    obtain ⟨sid, l⟩ := p
    exact ⟨sid, l, rfl, rfl⟩

/-- If every stored validation slot is `null`, the scan finds nothing. -/
theorem firstTruthy_none_of_all_none (lst : List (Nat × ValidationSlot))
    (h : ∀ p ∈ lst, p.2 = none) : firstTruthyValidation lst = none := by
  induction lst with
  | nil => rfl
  | cons p rest ih =>
    obtain ⟨k, slot⟩ := p
    have hp : slot = none := h (k, slot) (List.mem_cons_self _ _)
    subst hp
    simpa [firstTruthyValidation] using
      ih (fun q hq => h q (List.mem_cons_of_mem _ hq))

/-- On a key-sorted entry list containing a truthy slot, the scan
returns the truthy entry of least key. -/
theorem firstTruthy_spec (lst : List (Nat × ValidationSlot))
    (hsort : lst.Pairwise (fun a b => a.1 < b.1))
    (sid : Nat) (l : List String) (hmem : (sid, some l) ∈ lst) :
    ∃ sid0 l0, firstTruthyValidation lst = some (sid0, l0) ∧
      (sid0, some l0) ∈ lst ∧
      ∀ sid1 l1, (sid1, some l1) ∈ lst → sid0 ≤ sid1 := by
  induction lst with
  | nil => cases hmem
  | cons p rest ih =>
    obtain ⟨k, slot⟩ := p
    obtain ⟨hhead, htail⟩ := List.pairwise_cons.mp hsort
    cases slot with
    | some l0 =>
      refine ⟨k, l0, rfl, List.mem_cons_self _ _, ?_⟩
      intro sid1 l1 h1
      rcases List.mem_cons.mp h1 with h1 | h1
      · exact le_of_eq (congrArg Prod.fst h1.symm)
      · exact le_of_lt (hhead _ h1)
    | none =>
      have hmem' : (sid, some l) ∈ rest := by
        rcases List.mem_cons.mp hmem with h1 | h1
        · exact absurd (congrArg Prod.snd h1) (by simp)
        · exact h1
      obtain ⟨sid0, l0, heq, hmem0, hmin⟩ := ih htail hmem'
      refine ⟨sid0, l0, by simpa [firstTruthyValidation] using heq,
        List.mem_cons_of_mem _ hmem0, ?_⟩
      intro sid1 l1 h1
      rcases List.mem_cons.mp h1 with h1 | h1
      · exact absurd (congrArg Prod.snd h1) (by simp)
      · exact hmin sid1 l1 h1

/-! Claim theorems. -/

/-- C2: for every step and every input name in the recorded
input map, if the model reports the input as connected, the assembled
input map of that step, if the model reports the input as connected,
the parameter map assembled for that step holds no entry under that name;
every non-connected recorded input is kept with its recorded value. -/
theorem C2_connected_inputs_omitted (m : WorkflowModel) (st : State)
    (wid : String) (jd : JobDef)
    (h : (onExecute m st).2 = ExecAction.submit wid jd)
    (sid : Nat) (sd : List (String × String))
    (hstep : (sid, sd) ∈ st.stepData) :
    ∃ fsd, (sid, fsd) ∈ jd.parameters ∧
      (∀ name, m.isConnected sid name = true → ∀ w, (name, w) ∉ fsd) ∧
      (∀ name v, (name, v) ∈ sd → m.isConnected sid name = false →
        (name, v) ∈ fsd) := by
  obtain ⟨-, -, hjd⟩ := onExecute_submit_inv m st wid jd h
  subst hjd
  refine ⟨filterStepData m.isConnected sid sd, ?_, ?_, ?_⟩
  · exact List.mem_map.mpr ⟨(sid, sd), hstep, rfl⟩
  · intro name hconn w hw
    simp [filterStepData, List.mem_filter, hconn] at hw
  · intro name v hv hnconn
    exact List.mem_filter.mpr ⟨hv, by simp [hnconn]⟩

/-- C2 witness: in the concrete fixture, connected input `a` of step `0`
is dropped and non-connected input `b` is kept. -/
theorem C2_connected_inputs_omitted_witness :
    ∃ fsd, (0, fsd) ∈ (mkJobDef exModel cleanState).parameters ∧
      (∀ name, exModel.isConnected 0 name = true → ∀ w, (name, w) ∉ fsd) ∧
      (∀ name v, (name, v) ∈ [("a", "1"), ("b", "2")] →
        exModel.isConnected 0 name = false → (name, v) ∈ fsd) :=
  C2_connected_inputs_omitted exModel cleanState exModel.workflowId
    (mkJobDef exModel cleanState) rfl 0 [("a", "1"), ("b", "2")]
    (List.mem_cons_self _ _)

/-- C3: exactly one history field is active in the assembled request:
a present non-empty new-history-name is sent with `history_id = null`;
an absent or empty one sends the history id of the model with
`new_history_name = null`. -/
theorem C3_history_target (m : WorkflowModel) (st : State) (wid : String)
    (jd : JobDef) (h : (onExecute m st).2 = ExecAction.submit wid jd) :
    (∀ s, st.historyData.lookup "new_history|name" = some s → s ≠ "" →
      jd.new_history_name = some s ∧ jd.history_id = none) ∧
    (st.historyData.lookup "new_history|name" = none ∨
        st.historyData.lookup "new_history|name" = some "" →
      jd.new_history_name = none ∧ jd.history_id = some m.historyId) := by
  obtain ⟨-, -, hjd⟩ := onExecute_submit_inv m st wid jd h
  subst hjd
  constructor
  · intro s hs hne
    simp [mkJobDef, hs, truthyString, hne]
  · rintro (hc | hc) <;> simp [mkJobDef, hc, truthyString]

/-- C3 witness: with recorded name "My new history" the request carries
it and a null history id; with no recorded name the request carries the
history id of the model. -/
theorem C3_history_target_witness :
    ((mkJobDef exModel historyState).new_history_name = some "My new history" ∧
      (mkJobDef exModel historyState).history_id = none) ∧
    ((mkJobDef exModel cleanState).new_history_name = none ∧
      (mkJobDef exModel cleanState).history_id = some exModel.historyId) :=
  ⟨(C3_history_target exModel historyState exModel.workflowId
      (mkJobDef exModel historyState) rfl).1 "My new history" rfl (by decide),
    (C3_history_target exModel cleanState exModel.workflowId
      (mkJobDef exModel cleanState) rfl).2 (Or.inl rfl)⟩

/-- C4: a rejected submission whose payload carries a per-step error map
sets the scroll target to the step id of the first entry paired with
the first field-error of that entry, without forwarding the raw error; a rejected
submission without `err_data` forwards the raw error and leaves the
scroll target unchanged. -/
theorem C4_remote_error_localization (st : State) (sid k v : String)
    (ftail : List (String × String))
    (rest : List (String × List (String × String))) :
    (onSubmissionError st (some ((sid, (k, v) :: ftail) :: rest))).1.stepScrollTo
        = some ⟨sid, some [k, v]⟩ ∧
    (onSubmissionError st (some ((sid, (k, v) :: ftail) :: rest))).2 = false ∧
    (onSubmissionError st none).1.stepScrollTo = st.stepScrollTo ∧
    (onSubmissionError st none).2 = true :=
  ⟨rfl, rfl, rfl, rfl⟩

/-- C6: every assembled request carries the fixed protocol flags,
whatever the state. -/
theorem C6_fixed_protocol_flags (m : WorkflowModel) (st : State)
    (wid : String) (jd : JobDef)
    (h : (onExecute m st).2 = ExecAction.submit wid jd) :
    jd.parameters_normalized = true ∧ jd.batch = true ∧
      jd.require_exact_tool_versions = false := by
  obtain ⟨-, -, hjd⟩ := onExecute_submit_inv m st wid jd h
  subst hjd
  exact ⟨rfl, rfl, rfl⟩

/-- C6 witness: the flags at the concrete fixture. -/
theorem C6_fixed_protocol_flags_witness :
    (mkJobDef exModel cleanState).parameters_normalized = true ∧
    (mkJobDef exModel cleanState).batch = true ∧
    (mkJobDef exModel cleanState).require_exact_tool_versions = false :=
  C6_fixed_protocol_flags exModel cleanState exModel.workflowId
    (mkJobDef exModel cleanState) rfl

/-- C8: a present but malformed `err_data` (its entry list empty, so the
formatting dereference throws) is caught: the raw error is forwarded,
the scroll target is unchanged, and no secondary fault escapes. -/
theorem C8_malformed_err_data_caught (st : State) :
    (onSubmissionError st (some [])).1.stepScrollTo = st.stepScrollTo ∧
    (onSubmissionError st (some [])).2 = true ∧
    (onSubmissionError st (some [])).1 = { st with showExecuting := false } :=
  ⟨rfl, rfl, rfl⟩

/-- C1 counterexample: with slots `{0: [], 1: ["required"]}` the lowest
step index with a non-empty validation entry is `1`, yet the recorded
scroll target points at step `0` (the empty array is truthy and wins
the scan), so the claimed "lowest step index with a non-empty entry" is
violated. -/
theorem C1_counterexample :
    mixedValidState.stepValidations = [(0, some []), (1, some ["required"])] ∧
    (onExecute exModel mixedValidState).2 = ExecAction.abort ∧
    (onExecute exModel mixedValidState).1.stepScrollTo = some ⟨"0", some []⟩ ∧
    (onExecute exModel mixedValidState).1.stepScrollTo ≠
      some ⟨"1", some ["required"]⟩ :=
  ⟨rfl, rfl, rfl, by decide⟩

/-- C1 (amended): with at least one truthy validation slot (a present,
non-null entry — the empty array included), `onExecute` aborts without
contacting the submission service, and the scroll target is the lowest
step index whose slot is truthy. -/
theorem C1_first_failure_wins (m : WorkflowModel) (st : State)
    (hsort : st.stepValidations.Pairwise (fun a b => a.1 < b.1))
    (sid : Nat) (l : List String)
    (hmem : (sid, some l) ∈ st.stepValidations) :
    (onExecute m st).2 = ExecAction.abort ∧
    ∃ sid0 l0, (sid0, some l0) ∈ st.stepValidations ∧
      (∀ sid1 l1, (sid1, some l1) ∈ st.stepValidations → sid0 ≤ sid1) ∧
      (onExecute m st).1.stepScrollTo = some ⟨toString sid0, some l0⟩ := by
  obtain ⟨sid0, l0, heq, hmem0, hmin⟩ :=
    firstTruthy_spec st.stepValidations hsort sid l hmem
  unfold onExecute
  rw [heq]
  exact ⟨rfl, sid0, l0, hmem0, hmin, rfl⟩

/-- C1 witness: the amended claim applied to the concrete mixed state. -/
theorem C1_first_failure_wins_witness :
    (onExecute exModel mixedValidState).2 = ExecAction.abort :=
  (C1_first_failure_wins exModel mixedValidState (by decide) 1 ["required"]
    (by decide)).1

/-- C5 counterexample: in a state whose only validation entry is the
empty array (an "empty" entry in the sense of the claim), `onExecute` does
not reach the submission call: the empty array is truthy and aborts the
scan. -/
theorem C5_counterexample :
    emptyArrayValidState.stepValidations = [(0, some [])] ∧
    (onExecute exModel emptyArrayValidState).2.isSubmit = false ∧
    (onExecute exModel emptyArrayValidState).2 = ExecAction.abort :=
  ⟨rfl, rfl, rfl⟩

/-- C5 (amended): when every stored validation slot is `null`/absent,
`onExecute` issues the single submission call, of the workflow id with
the assembled request, and the busy indicator is raised at the call. -/
theorem C5_submit_when_all_falsy (m : WorkflowModel) (st : State)
    (h : ∀ p ∈ st.stepValidations, p.2 = none) :
    (onExecute m st).2 =
      ExecAction.submit m.workflowId (mkJobDef m st) ∧
    (onExecute m st).1.showExecuting = true := by
  have hf := firstTruthy_none_of_all_none st.stepValidations h
  unfold onExecute
  rw [hf]
  exact ⟨rfl, rfl⟩

/-- C5 witness: the amended claim at the clean fixture. -/
theorem C5_submit_when_all_falsy_witness :
    (onExecute exModel cleanState).2 =
      ExecAction.submit exModel.workflowId (mkJobDef exModel cleanState) ∧
    (onExecute exModel cleanState).1.showExecuting = true :=
  C5_submit_when_all_falsy exModel cleanState (by decide)

/-- C7 counterexample: with validations `{0: [], 1: ["required"]}` the
recorded scroll target is not `{stepId: 1, stepError: ["required"]}`:
the empty validation list at step `0` blocks submission at step `0`
instead of counting as valid. -/
theorem C7_counterexample :
    mixedValidState.stepValidations = [(0, some []), (1, some ["required"])] ∧
    (onExecute exModel mixedValidState).1.stepScrollTo ≠
      some ⟨"1", some ["required"]⟩ ∧
    (onExecute exModel mixedValidState).1.stepScrollTo ≠
      some ⟨toString (1 : Nat), some ["required"]⟩ :=
  ⟨rfl, by decide, by decide⟩

/-- C7 (amended): given the validation state `{0: [], 1: ["required"]}`,
`onExecute` aborts without any network call and records the scroll
target `{stepId: "0", stepError: []}`: an empty validation list is
truthy and counts as a failure at its step, not as "valid". -/
theorem C7_empty_list_blocks :
    (onExecute exModel mixedValidState).2 = ExecAction.abort ∧
    (onExecute exModel mixedValidState).1.stepScrollTo =
      some ⟨"0", some []⟩ :=
  ⟨rfl, rfl⟩

/-- C9: an aborting `onExecute` changes only the scroll target — step
input data, validation entries, workflow-level options and the busy
indicator keep their previous values — and the stored error detail is a
copy (same contents) of the offending validation array. -/
theorem C9_abort_frame (m : WorkflowModel) (st : State)
    (h : (onExecute m st).2 = ExecAction.abort) :
    ((onExecute m st).1.stepData = st.stepData ∧
      (onExecute m st).1.stepValidations = st.stepValidations ∧
      (onExecute m st).1.wpData = st.wpData ∧
      (onExecute m st).1.historyData = st.historyData ∧
      (onExecute m st).1.resourceData = st.resourceData ∧
      (onExecute m st).1.useCachedJobs = st.useCachedJobs ∧
      (onExecute m st).1.showExecuting = st.showExecuting) ∧
    ∃ sid l, firstTruthyValidation st.stepValidations = some (sid, l) ∧
      (onExecute m st).1.stepScrollTo =
        some ⟨toString sid, some (jsSlice l)⟩ ∧
      jsSlice l = l := by
  obtain ⟨sid, l, hf, heq⟩ := onExecute_abort_inv m st h
  rw [heq]
  exact ⟨⟨rfl, rfl, rfl, rfl, rfl, rfl, rfl⟩, sid, l, hf, rfl, jsSlice_eq l⟩

/-- C9 witness: frame conditions at the concrete aborting fixture. -/
theorem C9_abort_frame_witness :
    (onExecute exModel mixedValidState).1.stepData =
      mixedValidState.stepData ∧
    (onExecute exModel mixedValidState).1.showExecuting =
      mixedValidState.showExecuting :=
  ⟨(C9_abort_frame exModel mixedValidState rfl).1.1,
    (C9_abort_frame exModel mixedValidState rfl).1.2.2.2.2.2.2⟩

/-- C10: `getValidationScrollTo` returns the stored error detail exactly
on the step index matching the step id of the recorded scroll target,
and a
fresh empty list on every other index, including when no scroll target
has been recorded. -/
theorem C10_scroll_query (st : State) (t : ScrollTo) (sid : Nat) :
    (st.stepScrollTo = some t → jsEqStrNat t.stepId sid = true →
      getValidationScrollTo st sid = t.stepError) ∧
    (st.stepScrollTo = some t → jsEqStrNat t.stepId sid = false →
      getValidationScrollTo st sid = some []) ∧
    (st.stepScrollTo = none → getValidationScrollTo st sid = some []) := by
  refine ⟨?_, ?_, ?_⟩
  · intro h1 h2
    simp [getValidationScrollTo, h1, h2]
  · intro h1 h2
    simp [getValidationScrollTo, h1, h2]
  · intro h1
    simp [getValidationScrollTo, h1]

/-- C10 witness: queries against a recorded target at step "1" and
against the fixture with no recorded target. -/
theorem C10_scroll_query_witness :
    getValidationScrollTo scrollState 1 = some ["required"] ∧
    getValidationScrollTo scrollState 0 = some [] ∧
    getValidationScrollTo cleanState 5 = some [] :=
  ⟨(C10_scroll_query scrollState ⟨"1", some ["required"]⟩ 1).1 rfl (by decide),
    (C10_scroll_query scrollState ⟨"1", some ["required"]⟩ 0).2.1 rfl
      (by decide),
    (C10_scroll_query cleanState ⟨"1", some ["required"]⟩ 5).2.2 rfl⟩

end WorkflowRunForm
